import Mathlib

/-
Verification of cluster::node::local_monitor (src/v/cluster/node/local_monitor.cc).

The monitor state, the probe, the threshold policy, the alert evaluator, the
configuration refresh and the orchestration of one update_state cycle are
embedded as executable Lean definitions.  Machine integers (size_t, uint64_t)
are modelled as Nat; the claims under study do not concern 64-bit wraparound.
The long double arithmetic of the percent threshold leg is modelled as the
exact product followed by the truncating conversion to size_t, i.e. Nat floor
division.  Seastar futures are modelled by explicit state passing; a throwing
probe is modelled with Except.
-/

namespace ClusterNode

/-- The fields of struct statvfs that the monitor reads. -/
structure Statvfs where
  f_bfree : Nat
  f_frsize : Nat
  f_blocks : Nat
deriving DecidableEq

/-- cluster::node::disk. -/
structure Disk where
  path : String
  free : Nat
  total : Nat
deriving DecidableEq

/-- cluster::node::disk_space_alert. -/
inductive DiskSpaceAlert where
  | ok
  | low_space
deriving DecidableEq

/-- cluster::node::local_state, restricted to the fields local_monitor.cc
touches.  uptime is in milliseconds. -/
structure LocalState where
  redpanda_version : String
  uptime : Nat
  disks : List Disk
  storage_space_alert : DiskSpaceAlert
deriving DecidableEq

/-- A failure of the filesystem statistics query (the exception thrown by
ss::engine().statvfs or by an injected test function). -/
inductive ProbeError where
  | failed (msg : String)
deriving DecidableEq

/-- The log lines local_monitor.cc emits, reduced to their data content.
debug_alert_eval is the per-disk clusterlog.debug line of update_alert_state;
error_low_space is the despammed error line of maybe_log_space_error;
the two info events are the threshold transition lines of
refresh_configuration. -/
inductive LogEvent where
  | info_percent_threshold_updated (oldv newv : Nat)
  | info_bytes_threshold_updated (oldv newv : Nat)
  | debug_alert_eval (min_by_percent min_by_bytes free : Nat) (alert : Bool)
  | error_low_space (path : String) (total free min_space : Nat)
deriving DecidableEq

/-- Modelled from the spec: the rate limiter behind the despammed error log.
The logging backend and the despam_interval member live outside the source
tree; per the spec the diagnostic is emitted through a rate limiter keyed by a
fixed interval, so that a persistent condition logs at most once per interval.
An attempt emits when nothing was emitted before or when at least the interval
has elapsed since the last emission, and an emission records its time. -/
structure RateLimiter where
  interval : Nat
  lastEmit : Option Nat
deriving DecidableEq

/-- Modelled from the spec: one emission attempt through the rate limiter at
the current time; returns whether the line is emitted and the updated
limiter. -/
def RateLimiter.attempt (rl : RateLimiter) (now : Nat) : Bool × RateLimiter :=
  match rl.lastEmit with
  | none => (true, ⟨rl.interval, some now⟩)
  | some t =>
    if t + rl.interval ≤ now then (true, ⟨rl.interval, some now⟩)
    else (false, rl)

/-- The configuration values the monitor reads each cycle: the two alert
threshold settings of config::shard_local_cfg() and the data directory of
config::node(). -/
structure Config where
  storage_space_alert_free_threshold_bytes : Nat
  storage_space_alert_free_threshold_percent : Nat
  data_directory : String
deriving DecidableEq

/-- Ambient inputs of one update_state call: ss::engine().statvfs, the build
version string, ss::engine().uptime in milliseconds, and the current time seen
by the logger rate limiter. -/
structure Env where
  engine_statvfs : String → Except ProbeError Statvfs
  redpanda_version : String
  uptime : Nat
  now : Nat

/-- cluster::node::local_monitor: the member state that local_monitor.cc reads
and writes.  _path_for_test empty means no test path override is set, as in
the source where the override is an empty sstring by default. -/
structure Monitor where
  _state : LocalState
  last_free_space_percent_threshold : Nat
  last_free_space_bytes_threshold : Nat
  _path_for_test : String
  _statvfs_for_test : Option (String → Except ProbeError Statvfs)

/-- local_monitor::get_state_cached. -/
def Monitor.get_state_cached (m : Monitor) : LocalState :=
  m._state

/-- local_monitor::set_path_for_test. -/
def Monitor.set_path_for_test (m : Monitor) (path : String) : Monitor :=
  { m with _path_for_test := path }

/-- local_monitor::set_statvfs_for_test. -/
def Monitor.set_statvfs_for_test (m : Monitor)
    (f : String → Except ProbeError Statvfs) : Monitor :=
  { m with _statvfs_for_test := some f }

/-- local_monitor::get_config_alert_threshold_bytes. -/
def get_config_alert_threshold_bytes (cfg : Config) : Nat :=
  cfg.storage_space_alert_free_threshold_bytes

/-- local_monitor::get_config_alert_threshold_percent. -/
def get_config_alert_threshold_percent (cfg : Config) : Nat :=
  cfg.storage_space_alert_free_threshold_percent

/-- local_monitor::minimum_free_by_bytes_and_percent.  The source computes the
percent leg as long double percent_factor times bytes_available and stores it
into a size_t tuple slot; the exact product followed by that truncating
conversion is Nat floor division by 100.  The tuple order follows the source:
the bytes threshold is the first component, the percent-derived bound the
second. -/
def Monitor.minimum_free_by_bytes_and_percent (m : Monitor)
    (bytes_available : Nat) : Nat × Nat :=
  (m.last_free_space_bytes_threshold,
   m.last_free_space_percent_threshold * bytes_available / 100)

/-- The effective minimum-free-space floor both update_alert_state and
maybe_log_space_error compute: destructure the tuple as
min_by_bytes, min_by_percent and take std::min(min_by_percent, min_by_bytes). -/
def Monitor.evaluator_floor (m : Monitor) (total : Nat) : Nat :=
  min (m.minimum_free_by_bytes_and_percent total).2
    (m.minimum_free_by_bytes_and_percent total).1

/-- local_monitor::maybe_log_space_error: recompute the floor for the disk and
route one error line through the despam rate limiter.  Returns the lines that
actually reach the log (empty when the limiter suppresses) and the updated
limiter. -/
def Monitor.maybe_log_space_error (m : Monitor) (rl : RateLimiter) (now : Nat)
    (d : Disk) : List LogEvent × RateLimiter :=
  let min_space := m.evaluator_floor d.total
  let res := rl.attempt now
  (if res.1 then [LogEvent.error_low_space d.path d.total d.free min_space]
   else [],
   res.2)

/-- The loop body of local_monitor::update_alert_state over the remaining
disks, carrying the aggregate alert value of _state.storage_space_alert, the
rate limiter, the emitted log lines and the disks for which
maybe_log_space_error has been invoked.  Returns none when the vassert on a
zero total fires (fatal, the process aborts). -/
def Monitor.alert_loop (m : Monitor) (now : Nat) :
    List Disk → DiskSpaceAlert → RateLimiter → List LogEvent → List Disk →
    Option (DiskSpaceAlert × RateLimiter × List LogEvent × List Disk)
  | [], alert, rl, logs, diags => some (alert, rl, logs, diags)
  | d :: rest, alert, rl, logs, diags =>
    if d.total = 0 then
      none
    else
      let min_space := m.evaluator_floor d.total
      let dbg := LogEvent.debug_alert_eval
        (m.minimum_free_by_bytes_and_percent d.total).2
        (m.minimum_free_by_bytes_and_percent d.total).1
        d.free (decide (d.free ≤ min_space))
      if d.free ≤ min_space then
        let res := m.maybe_log_space_error rl now d
        m.alert_loop now rest DiskSpaceAlert.low_space res.2
          (logs ++ [dbg] ++ res.1) (diags ++ [d])
      else
        m.alert_loop now rest alert rl (logs ++ [dbg]) diags

/-- local_monitor::update_alert_state: reset the aggregate alert to ok, then
run the per-disk loop over _state.disks.  Returns the monitor with the final
alert written back into _state, the updated limiter, the emitted log lines and
the disks whose diagnostic path was invoked; none when the vassert fires. -/
def Monitor.update_alert_state (m : Monitor) (rl : RateLimiter) (now : Nat) :
    Option (Monitor × RateLimiter × List LogEvent × List Disk) :=
  match m.alert_loop now m._state.disks DiskSpaceAlert.ok rl [] [] with
  | none => none
  | some (alert, rl2, logs, diags) =>
    some ({ m with _state := { m._state with storage_space_alert := alert } },
      rl2, logs, diags)

/-- local_monitor::get_statvfs: dispatch to the injected test function when one
is set, otherwise to the engine. -/
def Monitor.get_statvfs (m : Monitor) (env : Env) (path : String) :
    Except ProbeError Statvfs :=
  match m._statvfs_for_test with
  | some f => f path
  | none => env.engine_statvfs path

/-- local_monitor::get_disks: the statvfs query goes to the test path override
when one is set (nonempty), but the path recorded in the returned disk is
always the configured data directory.  free and total are block counts times
f_frsize. -/
def Monitor.get_disks (m : Monitor) (env : Env) (cfg : Config) :
    Except ProbeError (List Disk) :=
  let path := if m._path_for_test = "" then cfg.data_directory
    else m._path_for_test
  match m.get_statvfs env path with
  | Except.error e => Except.error e
  | Except.ok svfs =>
    Except.ok [{ path := cfg.data_directory,
                 free := svfs.f_bfree * svfs.f_frsize,
                 total := svfs.f_blocks * svfs.f_frsize }]

/-- local_monitor::refresh_configuration: read both threshold settings; for
each one that differs from the cached value, emit one info transition line and
update the cache. -/
def Monitor.refresh_configuration (m : Monitor) (cfg : Config) :
    Monitor × List LogEvent :=
  let percent_threshold := get_config_alert_threshold_percent cfg
  let bytes_threshold := get_config_alert_threshold_bytes cfg
  let step1 : Monitor × List LogEvent :=
    if m.last_free_space_percent_threshold ≠ percent_threshold then
      ({ m with last_free_space_percent_threshold := percent_threshold },
       [LogEvent.info_percent_threshold_updated
          m.last_free_space_percent_threshold percent_threshold])
    else (m, [])
  let step2 : Monitor × List LogEvent :=
    if step1.1.last_free_space_bytes_threshold ≠ bytes_threshold then
      ({ step1.1 with last_free_space_bytes_threshold := bytes_threshold },
       [LogEvent.info_bytes_threshold_updated
          step1.1.last_free_space_bytes_threshold bytes_threshold])
    else (step1.1, [])
  (step2.1, step1.2 ++ step2.2)

/-- Outcome of one local_monitor::update_state call: success carries the new
monitor, the limiter, the emitted log lines and the disks whose diagnostic
path was invoked; probe_error carries the exception that escaped the call, the
monitor as left behind (configuration already refreshed, _state untouched) and
the lines emitted before the throw; fatal_assert is an aborted process. -/
inductive UpdateResult where
  | ok (m : Monitor) (rl : RateLimiter) (logs : List LogEvent)
      (diags : List Disk)
  | probe_error (e : ProbeError) (m : Monitor) (logs : List LogEvent)
  | fatal_assert

/-- local_monitor::update_state: refresh the configuration, probe the disks,
assign the new _state (the designated initializer leaves the alert field at
its default value, the first enumerator ok), then run update_alert_state,
which overwrites the alert field in place. -/
def Monitor.update_state (m : Monitor) (env : Env) (cfg : Config)
    (rl : RateLimiter) : UpdateResult :=
  let rc := m.refresh_configuration cfg
  match rc.1.get_disks env cfg with
  | Except.error e => UpdateResult.probe_error e rc.1 rc.2
  | Except.ok disks =>
    let m2 : Monitor :=
      { rc.1 with _state :=
        { redpanda_version := env.redpanda_version,
          uptime := env.uptime,
          disks := disks,
          storage_space_alert := DiskSpaceAlert.ok } }
    match m2.update_alert_state rl env.now with
    | none => UpdateResult.fatal_assert
    | some (m3, rl2, logs, diags) =>
      UpdateResult.ok m3 rl2 (rc.2 ++ logs) diags

/-- The four statements of local_monitor::update_state, as trace labels:
the refresh_configuration call, the co_await of get_disks, the assignment to
_state, and the update_alert_state call. -/
inductive Step where
  | refresh_config
  | probe_disks
  | swap_state
  | eval_alert
deriving DecidableEq

/-- local_monitor::update_state with each statement annotated: the returned
trace lists, in execution order, each executed step together with the value of
the cached _state right after that step.  The definition mirrors update_state
statement for statement. -/
def Monitor.update_state_traced (m : Monitor) (env : Env) (cfg : Config)
    (rl : RateLimiter) : List (Step × LocalState) × UpdateResult :=
  let rc := m.refresh_configuration cfg
  let t1 := [(Step.refresh_config, rc.1._state)]
  match rc.1.get_disks env cfg with
  | Except.error e => (t1, UpdateResult.probe_error e rc.1 rc.2)
  | Except.ok disks =>
    let t2 := t1 ++ [(Step.probe_disks, rc.1._state)]
    let m2 : Monitor :=
      { rc.1 with _state :=
        { redpanda_version := env.redpanda_version,
          uptime := env.uptime,
          disks := disks,
          storage_space_alert := DiskSpaceAlert.ok } }
    let t3 := t2 ++ [(Step.swap_state, m2._state)]
    match m2.update_alert_state rl env.now with
    | none => (t3, UpdateResult.fatal_assert)
    | some (m3, rl2, logs, diags) =>
      (t3 ++ [(Step.eval_alert, m3._state)],
       UpdateResult.ok m3 rl2 (rc.2 ++ logs) diags)

/-- The values of _state after an update_state call, per outcome: after a
successful cycle the evaluated snapshot, after a probe failure the untouched
previous snapshot, after a fatal assertion nothing (the process is gone). -/
def UpdateResult.final_states : UpdateResult → List LocalState
  | UpdateResult.ok m3 _ _ _ => [m3._state]
  | UpdateResult.probe_error _ m1 _ => [m1._state]
  | UpdateResult.fatal_assert => []

/-- The values of _state a reader of get_state_cached can observe around one
update_state call: under the cooperative scheduler other tasks run only while
the coroutine is suspended, which happens only at the co_await of the disk
probe (refresh_configuration, the _state assignment and update_alert_state
contain no suspension point), so a reader sees the snapshot from before the
call (unchanged through the probe suspension) or the snapshot the call leaves
behind. -/
def Monitor.reader_observable_states (m : Monitor) (env : Env) (cfg : Config)
    (rl : RateLimiter) : List LocalState :=
  m._state :: (m.update_state env cfg rl).final_states

/-- The log lines emitted by an update_state call, per outcome. -/
def UpdateResult.logs_of : UpdateResult → List LogEvent
  | UpdateResult.ok _ _ logs _ => logs
  | UpdateResult.probe_error _ _ logs => logs
  | UpdateResult.fatal_assert => []

/-- The disks of the cached snapshot after a successful update_state call. -/
def UpdateResult.disks_of : UpdateResult → Option (List Disk)
  | UpdateResult.ok m3 _ _ _ => some m3._state.disks
  | _ => none

/-- The aggregate alert of the cached snapshot after a successful update_state
call. -/
def UpdateResult.alert_of : UpdateResult → Option DiskSpaceAlert
  | UpdateResult.ok m3 _ _ _ => some m3._state.storage_space_alert
  | _ => none

/-- Whether a log event is the despammed low-space error line. -/
def LogEvent.is_error_low_space : LogEvent → Bool
  | LogEvent.error_low_space _ _ _ _ => true
  | _ => false

/-- Whether a log event is the per-disk debug line of update_alert_state. -/
def LogEvent.is_debug_eval : LogEvent → Bool
  | LogEvent.debug_alert_eval _ _ _ _ => true
  | _ => false

/-- Whether a log event is the percent threshold transition info line. -/
def LogEvent.is_percent_update : LogEvent → Bool
  | LogEvent.info_percent_threshold_updated _ _ => true
  | _ => false

/-- Whether a log event is the bytes threshold transition info line. -/
def LogEvent.is_bytes_update : LogEvent → Bool
  | LogEvent.info_bytes_threshold_updated _ _ => true
  | _ => false

/-- A sequence of update_state cycles driven by an external timer: one call
per entry of times, with fixed probe function, version string, uptime and
configuration, threading the monitor and the rate limiter.  Collects every
emitted log line.  A probe failure ends the run with the lines emitted before
the throw; a fatal assertion ends it with nothing. -/
def run_cycles (statfn : String → Except ProbeError Statvfs) (ver : String)
    (up : Nat) (cfg : Config) :
    Monitor → RateLimiter → List Nat → List LogEvent
  | _, _, [] => []
  | m, rl, t :: ts =>
    match m.update_state ⟨statfn, ver, up, t⟩ cfg rl with
    | UpdateResult.ok m2 rl2 logs _ =>
      logs ++ run_cycles statfn ver up cfg m2 rl2 ts
    | UpdateResult.probe_error _ _ logs => logs
    | UpdateResult.fatal_assert => []

/-- A sequence of bare emission attempts through the rate limiter, one per
entry of times; returns the number of emissions. -/
def RateLimiter.run : RateLimiter → List Nat → Nat
  | _, [] => 0
  | rl, t :: ts =>
    (if (rl.attempt t).1 then 1 else 0) + (rl.attempt t).2.run ts

/-- Whether an update_state call returned normally. -/
def UpdateResult.is_ok : UpdateResult → Bool
  | UpdateResult.ok _ _ _ _ => true
  | _ => false

/-- The exception that escaped an update_state call, when one did. -/
def UpdateResult.error_of : UpdateResult → Option ProbeError
  | UpdateResult.probe_error e _ _ => some e
  | _ => none

/-- The monitor an update_state call leaves behind, with a fallback for the
aborted-process outcome. -/
def UpdateResult.monitor_or (dflt : Monitor) : UpdateResult → Monitor
  | UpdateResult.ok m3 _ _ _ => m3
  | UpdateResult.probe_error _ m1 _ => m1
  | UpdateResult.fatal_assert => dflt

/-- The rate limiter an update_state call leaves behind, with a fallback for
outcomes that never reached the evaluator. -/
def UpdateResult.rl_or (dflt : RateLimiter) : UpdateResult → RateLimiter
  | UpdateResult.ok _ rl2 _ _ => rl2
  | _ => dflt

/-- The aggregate alert an update_alert_state call computed, none when the
vassert fired. -/
def alert_result_alert :
    Option (Monitor × RateLimiter × List LogEvent × List Disk) →
    Option DiskSpaceAlert
  | some (m2, _, _, _) => some m2._state.storage_space_alert
  | none => none

/-- The log lines an update_alert_state call emitted. -/
def alert_result_logs :
    Option (Monitor × RateLimiter × List LogEvent × List Disk) →
    List LogEvent
  | some (_, _, logs, _) => logs
  | none => []

/-- The disks whose diagnostic path an update_alert_state call invoked. -/
def alert_result_diags :
    Option (Monitor × RateLimiter × List LogEvent × List Disk) → List Disk
  | some (_, _, _, diags) => diags
  | none => []

/-- The one disk get_disks builds from a statvfs result under a
configuration: path is the data directory, free and total are block counts
times the fragment size. -/
def probed_disk (cfg : Config) (sv : Statvfs) : Disk :=
  ⟨cfg.data_directory, sv.f_bfree * sv.f_frsize, sv.f_blocks * sv.f_frsize⟩

/-- The evaluator floor expressed directly from the freshly read
configuration settings: the minimum of the percent-derived bound and the
bytes threshold. -/
def config_floor (cfg : Config) (total : Nat) : Nat :=
  min (get_config_alert_threshold_percent cfg * total / 100)
    (get_config_alert_threshold_bytes cfg)

/-
Concrete fixtures for the closed instance theorems.  The scenario follows the
spec: a 1000-byte disk at /data with 50 bytes free, thresholds ten percent and
100 bytes, fragment size one.
-/

/-- A statvfs sample: 1000 blocks, 50 free, fragment size 1. -/
def svOK : Statvfs := ⟨50, 1, 1000⟩

/-- A probe that always succeeds with svOK. -/
def statfnOK : String → Except ProbeError Statvfs :=
  fun _ => Except.ok svOK

/-- A probe that always throws. -/
def statfnFail : String → Except ProbeError Statvfs :=
  fun _ => Except.error (ProbeError.failed "EIO")

/-- A probe whose answer depends on the queried path. -/
def statfnByPath : String → Except ProbeError Statvfs :=
  fun p => if p = "/override" then Except.ok ⟨7, 1, 100⟩ else Except.ok svOK

/-- Thresholds ten percent and 100 bytes over data directory /data. -/
def cfgA : Config := ⟨100, 10, "/data"⟩

/-- Thresholds five percent and 500 bytes over data directory /data. -/
def cfgB : Config := ⟨500, 5, "/data"⟩

/-- A fresh rate limiter with a despam interval of 10 time units. -/
def rlFresh : RateLimiter := ⟨10, none⟩

/-- The cached snapshot before any cycle. -/
def stateInit : LocalState := ⟨"v0", 0, [], DiskSpaceAlert.ok⟩

/-- A monitor whose cached thresholds already match cfgA, no test seams. -/
def mInit : Monitor := ⟨stateInit, 10, 100, "", none⟩

/-- A monitor with the test path override set. -/
def mOverride : Monitor := ⟨stateInit, 10, 100, "/override", none⟩

/-- A monitor whose snapshot holds one disk below floor and one above, both
with nonzero total, cached thresholds ten percent and 100 bytes. -/
def mTwo : Monitor :=
  ⟨⟨"v0", 0, [⟨"/data", 50, 1000⟩, ⟨"/x", 999, 1000⟩], DiskSpaceAlert.ok⟩,
   10, 100, "", none⟩

/-- A monitor whose snapshot holds a zero-total disk. -/
def mZero : Monitor :=
  ⟨⟨"v0", 0, [⟨"/data", 0, 0⟩], DiskSpaceAlert.ok⟩, 10, 100, "", none⟩

/-- The environment at a given rate-limiter time: probe statfnOK, version v1,
uptime 5. -/
def envAt (t : Nat) : Env := ⟨statfnOK, "v1", 5, t⟩

/-- The environment whose probe always throws. -/
def envFail : Env := ⟨statfnFail, "v1", 5, 0⟩

/-- The environment whose probe answer depends on the path. -/
def envByPath : Env := ⟨statfnByPath, "v1", 5, 0⟩

/-- The disk probed from svOK under cfgA. -/
def dA : Disk := ⟨"/data", 50, 1000⟩

/-- The monitor after a first successful cycle of mInit under cfgA at time 0:
one disk below floor, alert raised. -/
def m3A : Monitor :=
  ⟨⟨"v1", 5, [dA], DiskSpaceAlert.low_space⟩, 10, 100, "", none⟩

/-- The rate limiter after that first cycle: one emission at time 0. -/
def rlA : RateLimiter := ⟨10, some 0⟩

/-- The log lines of that first cycle. -/
def logsA : List LogEvent :=
  [LogEvent.debug_alert_eval 100 100 50 true,
   LogEvent.error_low_space "/data" 1000 50 100]

/-
Helper lemmas, shared by the claim theorems below.
-/

/-- refresh_configuration leaves every field but the two cached thresholds
unchanged and makes the cached thresholds equal to the freshly read
settings. -/
theorem refresh_configuration_monitor (m : Monitor) (cfg : Config) :
    (m.refresh_configuration cfg).1 =
      ⟨m._state, get_config_alert_threshold_percent cfg,
       get_config_alert_threshold_bytes cfg, m._path_for_test,
       m._statvfs_for_test⟩ := by
  obtain ⟨st, lp, lb, pf, sv⟩ := m
  by_cases h1 : lp = get_config_alert_threshold_percent cfg <;>
    by_cases h2 : lb = get_config_alert_threshold_bytes cfg <;>
      simp [Monitor.refresh_configuration, h1, h2]

/-- The log lines of refresh_configuration: one info transition line per
setting that differs from the cached value, percent first. -/
theorem refresh_configuration_logs (m : Monitor) (cfg : Config) :
    (m.refresh_configuration cfg).2 =
      (if m.last_free_space_percent_threshold
          = get_config_alert_threshold_percent cfg then []
       else [LogEvent.info_percent_threshold_updated
              m.last_free_space_percent_threshold
              (get_config_alert_threshold_percent cfg)]) ++
      (if m.last_free_space_bytes_threshold
          = get_config_alert_threshold_bytes cfg then []
       else [LogEvent.info_bytes_threshold_updated
              m.last_free_space_bytes_threshold
              (get_config_alert_threshold_bytes cfg)]) := by
  obtain ⟨st, lp, lb, pf, sv⟩ := m
  by_cases h1 : lp = get_config_alert_threshold_percent cfg <;>
    by_cases h2 : lb = get_config_alert_threshold_bytes cfg <;>
      simp [Monitor.refresh_configuration, h1, h2]

/-- refresh_configuration emits no error-severity line. -/
theorem refresh_configuration_no_error (m : Monitor) (cfg : Config) :
    ((m.refresh_configuration cfg).2).countP LogEvent.is_error_low_space
      = 0 := by
  rw [refresh_configuration_logs]
  split_ifs <;> simp [LogEvent.is_error_low_space]

/-- get_disks ignores the cached thresholds, so refreshing the configuration
does not change its result. -/
theorem get_disks_refresh (m : Monitor) (env : Env) (cfg : Config) :
    ((m.refresh_configuration cfg).1).get_disks env cfg
      = m.get_disks env cfg := by
  rw [refresh_configuration_monitor]
  rfl

/-- A successful statvfs query at the effective path makes get_disks return
the one probed disk, whose recorded path is the configured data directory. -/
theorem get_disks_ok (m : Monitor) (env : Env) (cfg : Config) (sv : Statvfs)
    (hsv : m.get_statvfs env
        (if m._path_for_test = "" then cfg.data_directory
         else m._path_for_test) = Except.ok sv) :
    m.get_disks env cfg =
      Except.ok [⟨cfg.data_directory, sv.f_bfree * sv.f_frsize,
        sv.f_blocks * sv.f_frsize⟩] := by
  simp only [Monitor.get_disks, hsv]

/-- The evaluator loop aborts through the vassert as soon as it reaches a
zero-total disk, whatever is in the accumulators. -/
theorem alert_loop_none (m : Monitor) (now : Nat) :
    ∀ (disks : List Disk) (alert : DiskSpaceAlert) (rl : RateLimiter)
      (logs : List LogEvent) (diags : List Disk),
      (∃ d ∈ disks, d.total = 0) →
      m.alert_loop now disks alert rl logs diags = none := by
  intro disks
  induction disks with
  | nil => intro alert rl logs diags h; simp at h
  | cons d rest ih =>
    intro alert rl logs diags h
    by_cases h0 : d.total = 0
    · simp [Monitor.alert_loop, h0]
    · have hrest : ∃ x ∈ rest, x.total = 0 := by
        rcases h with ⟨x, hx, hx0⟩
        rcases List.mem_cons.mp hx with h1 | h1
        · exact absurd (h1 ▸ hx0) h0
        · exact ⟨x, h1, hx0⟩
      simp only [Monitor.alert_loop, h0, if_false]
      split_ifs <;> exact ih _ _ _ _ hrest

/-- The evaluator loop on disks with nonzero totals: it returns, appends its
lines and its diagnosed disks to the accumulators, diagnoses exactly the
disks at or below their floor, emits one debug line per disk, and raises the
carried alert exactly when some disk is at or below its floor. -/
theorem alert_loop_char (m : Monitor) (now : Nat) :
    ∀ (disks : List Disk) (alert : DiskSpaceAlert) (rl : RateLimiter)
      (logs : List LogEvent) (diags : List Disk),
      (∀ d ∈ disks, d.total ≠ 0) →
      ∃ rl2 logs2,
        m.alert_loop now disks alert rl logs diags =
          some ((if ∃ d ∈ disks, d.free ≤ m.evaluator_floor d.total
                 then DiskSpaceAlert.low_space else alert),
                rl2, logs ++ logs2,
                diags ++ disks.filter
                  (fun d => decide (d.free ≤ m.evaluator_floor d.total))) ∧
        logs2.countP LogEvent.is_debug_eval = disks.length ∧
        logs2.countP LogEvent.is_percent_update = 0 ∧
        logs2.countP LogEvent.is_bytes_update = 0 := by
  intro disks
  induction disks with
  | nil =>
    intro alert rl logs diags _
    exact ⟨rl, [], by simp [Monitor.alert_loop], by simp, by simp, by simp⟩
  | cons d rest ih =>
    intro alert rl logs diags h
    have h0 : d.total ≠ 0 := h d (List.mem_cons_self d rest)
    have hrest : ∀ x ∈ rest, x.total ≠ 0 := fun x hx => h x (List.mem_cons_of_mem d hx)
    by_cases hb : d.free ≤ m.evaluator_floor d.total
    · -- below floor: alert raised, diagnostic path invoked
      obtain ⟨rl2, logs2, heq, hdbg, hpc, hbc⟩ :=
        ih DiskSpaceAlert.low_space ((rl.attempt now).2)
          (logs ++ [LogEvent.debug_alert_eval
            (m.minimum_free_by_bytes_and_percent d.total).2
            (m.minimum_free_by_bytes_and_percent d.total).1
            d.free (decide (d.free ≤ m.evaluator_floor d.total))] ++
            (if (rl.attempt now).1 then
              [LogEvent.error_low_space d.path d.total d.free
                (m.evaluator_floor d.total)] else []))
          (diags ++ [d]) hrest
      refine ⟨rl2,
        [LogEvent.debug_alert_eval
            (m.minimum_free_by_bytes_and_percent d.total).2
            (m.minimum_free_by_bytes_and_percent d.total).1
            d.free (decide (d.free ≤ m.evaluator_floor d.total))] ++
          (if (rl.attempt now).1 then
            [LogEvent.error_low_space d.path d.total d.free
              (m.evaluator_floor d.total)] else []) ++ logs2, ?_, ?_, ?_, ?_⟩
      · simp only [Monitor.alert_loop, Monitor.maybe_log_space_error,
          if_neg h0, if_pos hb]
        rw [heq]
        have hex : (∃ x ∈ d :: rest, x.free ≤ m.evaluator_floor x.total) := by
          exact ⟨d, List.mem_cons_self d rest, hb⟩
        have hfd : List.filter
            (fun x => decide (x.free ≤ m.evaluator_floor x.total)) (d :: rest)
            = d :: List.filter
                (fun x => decide (x.free ≤ m.evaluator_floor x.total)) rest := by
          simp [List.filter_cons, hb]
        rw [if_pos hex, ite_self, hfd]
        simp [List.append_assoc]
      · simp only [List.countP_append, hdbg]
        split_ifs <;>
          simp [LogEvent.is_debug_eval, List.countP_cons, List.countP_nil,
            List.length_cons] <;> omega
      · simp only [List.countP_append, hpc]
        split_ifs <;> simp [LogEvent.is_percent_update, List.countP_cons,
          List.countP_nil]
      · simp only [List.countP_append, hbc]
        split_ifs <;> simp [LogEvent.is_bytes_update, List.countP_cons,
          List.countP_nil]
    · -- above floor: alert carried through
      obtain ⟨rl2, logs2, heq, hdbg, hpc, hbc⟩ :=
        ih alert rl
          (logs ++ [LogEvent.debug_alert_eval
            (m.minimum_free_by_bytes_and_percent d.total).2
            (m.minimum_free_by_bytes_and_percent d.total).1
            d.free (decide (d.free ≤ m.evaluator_floor d.total))])
          diags hrest
      refine ⟨rl2,
        [LogEvent.debug_alert_eval
            (m.minimum_free_by_bytes_and_percent d.total).2
            (m.minimum_free_by_bytes_and_percent d.total).1
            d.free (decide (d.free ≤ m.evaluator_floor d.total))] ++ logs2,
        ?_, ?_, ?_, ?_⟩
      · simp only [Monitor.alert_loop, if_neg h0, if_neg hb]
        rw [heq]
        have hex : (∃ x ∈ d :: rest, x.free ≤ m.evaluator_floor x.total)
            ↔ (∃ x ∈ rest, x.free ≤ m.evaluator_floor x.total) := by
          constructor
          · rintro ⟨x, hx, hxle⟩
            rcases List.mem_cons.mp hx with h1 | h1
            · exact absurd (h1 ▸ hxle) hb
            · exact ⟨x, h1, hxle⟩
          · rintro ⟨x, hx, hxle⟩
            exact ⟨x, List.mem_cons_of_mem d hx, hxle⟩
        have hfd : List.filter
            (fun x => decide (x.free ≤ m.evaluator_floor x.total)) (d :: rest)
            = List.filter
                (fun x => decide (x.free ≤ m.evaluator_floor x.total)) rest := by
          simp [List.filter_cons, hb]
        rw [if_congr hex rfl rfl, hfd]
        simp [List.append_assoc]
      · simp [List.countP_append, hdbg, LogEvent.is_debug_eval,
          List.countP_cons]
      · simp [List.countP_append, hpc, LogEvent.is_percent_update,
          List.countP_cons]
      · simp [List.countP_append, hbc, LogEvent.is_bytes_update,
          List.countP_cons]

/-- The evaluator loop on a single nonzero-total disk, as an exact
equation. -/
theorem alert_loop_single (m : Monitor) (now : Nat) (rl : RateLimiter)
    (d : Disk) (h : d.total ≠ 0) :
    m.alert_loop now [d] DiskSpaceAlert.ok rl [] [] =
      some
        ((if d.free ≤ m.evaluator_floor d.total then DiskSpaceAlert.low_space
          else DiskSpaceAlert.ok),
         (if d.free ≤ m.evaluator_floor d.total then (rl.attempt now).2
          else rl),
         [LogEvent.debug_alert_eval
            (m.minimum_free_by_bytes_and_percent d.total).2
            (m.minimum_free_by_bytes_and_percent d.total).1 d.free
            (decide (d.free ≤ m.evaluator_floor d.total))] ++
           (if d.free ≤ m.evaluator_floor d.total then
             (if (rl.attempt now).1 then
               [LogEvent.error_low_space d.path d.total d.free
                 (m.evaluator_floor d.total)]
              else []) else []),
         (if d.free ≤ m.evaluator_floor d.total then [d] else [])) := by
  by_cases hb : d.free ≤ m.evaluator_floor d.total <;>
    simp [Monitor.alert_loop, Monitor.maybe_log_space_error, h, hb]

/-- One successful update_state cycle, as an exact equation: the snapshot is
swapped wholesale, the thresholds are refreshed before the evaluation and the
evaluation uses them, the alert reflects the freshly probed disk against the
freshly read thresholds, and the error line goes through the rate limiter. -/
theorem update_state_ok_eq (m : Monitor) (env : Env) (cfg : Config)
    (rl : RateLimiter) (sv : Statvfs)
    (hsv : m.get_statvfs env
        (if m._path_for_test = "" then cfg.data_directory
         else m._path_for_test) = Except.ok sv)
    (htot : sv.f_blocks * sv.f_frsize ≠ 0) :
    m.update_state env cfg rl =
      UpdateResult.ok
        ⟨⟨env.redpanda_version, env.uptime, [probed_disk cfg sv],
          if sv.f_bfree * sv.f_frsize
              ≤ config_floor cfg (sv.f_blocks * sv.f_frsize)
          then DiskSpaceAlert.low_space else DiskSpaceAlert.ok⟩,
         get_config_alert_threshold_percent cfg,
         get_config_alert_threshold_bytes cfg,
         m._path_for_test, m._statvfs_for_test⟩
        (if sv.f_bfree * sv.f_frsize
            ≤ config_floor cfg (sv.f_blocks * sv.f_frsize)
         then (rl.attempt env.now).2 else rl)
        ((m.refresh_configuration cfg).2 ++
          ([LogEvent.debug_alert_eval
              (get_config_alert_threshold_percent cfg
                * (sv.f_blocks * sv.f_frsize) / 100)
              (get_config_alert_threshold_bytes cfg)
              (sv.f_bfree * sv.f_frsize)
              (decide (sv.f_bfree * sv.f_frsize
                ≤ config_floor cfg (sv.f_blocks * sv.f_frsize)))] ++
           (if sv.f_bfree * sv.f_frsize
               ≤ config_floor cfg (sv.f_blocks * sv.f_frsize) then
             (if (rl.attempt env.now).1 then
               [LogEvent.error_low_space cfg.data_directory
                 (sv.f_blocks * sv.f_frsize) (sv.f_bfree * sv.f_frsize)
                 (config_floor cfg (sv.f_blocks * sv.f_frsize))]
              else []) else [])))
        (if sv.f_bfree * sv.f_frsize
            ≤ config_floor cfg (sv.f_blocks * sv.f_frsize)
         then [probed_disk cfg sv] else []) := by
  have hd : ((m.refresh_configuration cfg).1).get_disks env cfg
      = Except.ok [probed_disk cfg sv] := by
    rw [get_disks_refresh]
    exact get_disks_ok m env cfg sv hsv
  have htot2 : (probed_disk cfg sv).total ≠ 0 := htot
  rw [refresh_configuration_monitor] at hd
  simp only [Monitor.update_state, refresh_configuration_monitor,
    Monitor.update_alert_state, hd]
  rw [alert_loop_single _ _ _ _ htot2]
  simp only [Monitor.evaluator_floor, Monitor.minimum_free_by_bytes_and_percent,
    probed_disk, config_floor]

/-- An attempt on a limiter that never emitted: it emits and records the
time. -/
theorem attempt_none (rl : RateLimiter) (t : Nat) (h : rl.lastEmit = none) :
    rl.attempt t = (true, ⟨rl.interval, some t⟩) := by
  simp [RateLimiter.attempt, h]

/-- An attempt at least one interval after the last emission: it emits and
records the time. -/
theorem attempt_some_emit (rl : RateLimiter) (t s : Nat)
    (h : rl.lastEmit = some s) (hc : s + rl.interval ≤ t) :
    rl.attempt t = (true, ⟨rl.interval, some t⟩) := by
  simp [RateLimiter.attempt, h, hc]

/-- An attempt within one interval of the last emission: it is suppressed and
leaves the limiter unchanged. -/
theorem attempt_some_skip (rl : RateLimiter) (t s : Nat)
    (h : rl.lastEmit = some s) (hc : ¬ s + rl.interval ≤ t) :
    rl.attempt t = (false, rl) := by
  simp [RateLimiter.attempt, h, hc]

/-- An attempt that emitted leaves the limiter at the interval with the
attempt time recorded. -/
theorem attempt_true_eq (rl : RateLimiter) (t : Nat)
    (h : (rl.attempt t).1 = true) :
    (rl.attempt t).2 = ⟨rl.interval, some t⟩ := by
  cases hl : rl.lastEmit with
  | none => rw [attempt_none rl t hl]
  | some s =>
    by_cases hc : s + rl.interval ≤ t
    · rw [attempt_some_emit rl t s hl hc]
    · rw [attempt_some_skip rl t s hl hc] at h
      simp at h

/-- A suppressed attempt leaves the limiter unchanged. -/
theorem attempt_false_eq (rl : RateLimiter) (t : Nat)
    (h : (rl.attempt t).1 = false) : (rl.attempt t).2 = rl := by
  cases hl : rl.lastEmit with
  | none => rw [attempt_none rl t hl] at h; simp at h
  | some s =>
    by_cases hc : s + rl.interval ≤ t
    · rw [attempt_some_emit rl t s hl hc] at h; simp at h
    · rw [attempt_some_skip rl t s hl hc]

/-- After an emission, every further attempt within one interval of that
emission is suppressed and emits nothing. -/
theorem run_after_emit (e : Nat) :
    ∀ (ts : List Nat) (rl : RateLimiter), rl.lastEmit = some e →
      (∀ t ∈ ts, t < e + rl.interval) → rl.run ts = 0 := by
  intro ts
  induction ts with
  | nil => intro rl _ _; rfl
  | cons t rest ih =>
    intro rl hl hw
    have ht : t < e + rl.interval := hw t (List.mem_cons_self t rest)
    have hskip := attempt_some_skip rl t e hl (by omega)
    simp only [RateLimiter.run, hskip]
    simpa using ih rl hl (fun x hx => hw x (List.mem_cons_of_mem t hx))

/-- Attempts whose times all lie in one window of length interval produce at
most one emission, whatever the limiter state was before. -/
theorem run_le_one (a : Nat) :
    ∀ (ts : List Nat) (rl : RateLimiter),
      (∀ t ∈ ts, a ≤ t ∧ t < a + rl.interval) → rl.run ts ≤ 1 := by
  intro ts
  induction ts with
  | nil => intro rl _; simp [RateLimiter.run]
  | cons t rest ih =>
    intro rl hw
    have ht := hw t (List.mem_cons_self t rest)
    have hrest : ∀ x ∈ rest, a ≤ x ∧ x < a + rl.interval :=
      fun x hx => hw x (List.mem_cons_of_mem t hx)
    cases hfirst : (rl.attempt t).1 with
    | true =>
      have hlast := attempt_true_eq rl t hfirst
      have hzero : (rl.attempt t).2.run rest = 0 := by
        refine run_after_emit t rest (rl.attempt t).2 (by rw [hlast]) ?_
        intro x hx
        rw [hlast]
        have := hrest x hx
        show x < t + rl.interval
        omega
      simp [RateLimiter.run, hfirst, hzero]
    | false =>
      have hkeep := attempt_false_eq rl t hfirst
      simp only [RateLimiter.run, hfirst, if_false, hkeep]
      simpa using ih rl hrest

/-- A second attempt within one interval of a first attempt is suppressed,
provided the limiter also held no emission older than one interval before the
second time. -/
theorem attempt_twice_false (rl : RateLimiter) (t1 t2 : Nat)
    (h1 : t2 < t1 + rl.interval)
    (h2 : ∀ s, rl.lastEmit = some s → t2 < s + rl.interval) :
    ((rl.attempt t1).2).attempt t2 = (false, (rl.attempt t1).2) := by
  cases hl : rl.lastEmit with
  | none =>
    rw [attempt_none rl t1 hl]
    exact attempt_some_skip _ t2 t1 rfl
      (by show ¬ t1 + rl.interval ≤ t2; omega)
  | some s =>
    by_cases hc : s + rl.interval ≤ t1
    · rw [attempt_some_emit rl t1 s hl hc]
      exact attempt_some_skip _ t2 t1 rfl
        (by show ¬ t1 + rl.interval ≤ t2; omega)
    · rw [attempt_some_skip rl t1 s hl hc]
      exact attempt_some_skip rl t2 s hl (by have := h2 s hl; omega)

/-- Over a run of cycles with a fixed failing-free probe whose disk sits at or
below the floor, the number of emitted error lines equals the number of
emissions the bare rate limiter allows at the cycle times. -/
theorem run_cycles_error_count (statfn : String → Except ProbeError Statvfs)
    (ver : String) (up : Nat) (cfg : Config) (sv : Statvfs) (pt : String)
    (hsv : statfn (if pt = "" then cfg.data_directory else pt)
      = Except.ok sv)
    (htot : sv.f_blocks * sv.f_frsize ≠ 0)
    (hbelow : sv.f_bfree * sv.f_frsize
      ≤ config_floor cfg (sv.f_blocks * sv.f_frsize)) :
    ∀ (times : List Nat) (m : Monitor) (rl : RateLimiter),
      m._path_for_test = pt → m._statvfs_for_test = none →
      (run_cycles statfn ver up cfg m rl times).countP
          LogEvent.is_error_low_space = rl.run times := by
  intro times
  induction times with
  | nil => intro m rl _ _; rfl
  | cons t ts ih =>
    intro m rl hpath hseam
    have hsv2 : m.get_statvfs ⟨statfn, ver, up, t⟩
        (if m._path_for_test = "" then cfg.data_directory
         else m._path_for_test) = Except.ok sv := by
      simp only [Monitor.get_statvfs, hseam, hpath]
      exact hsv
    have hup := update_state_ok_eq m ⟨statfn, ver, up, t⟩ cfg rl sv hsv2 htot
    simp only [run_cycles, hup, if_pos hbelow, List.countP_append]
    rw [refresh_configuration_no_error, ih]
    · cases hatt : (rl.attempt t).1 <;>
        simp [hatt, RateLimiter.run, LogEvent.is_error_low_space,
          List.countP_cons]
    · exact hpath
    · exact hseam

/-- update_alert_state on a snapshot of nonzero-total disks: the aggregate
alert is low_space exactly when some disk is at or below its floor, the
diagnostic path is invoked exactly for the disks at or below their floor, and
one debug line is emitted per disk. -/
theorem update_alert_state_char (m : Monitor) (rl : RateLimiter) (now : Nat)
    (h : ∀ d ∈ m._state.disks, d.total ≠ 0) :
    alert_result_alert (m.update_alert_state rl now) =
      some (if ∃ d ∈ m._state.disks, d.free ≤ m.evaluator_floor d.total
            then DiskSpaceAlert.low_space else DiskSpaceAlert.ok) ∧
    alert_result_diags (m.update_alert_state rl now) =
      m._state.disks.filter
        (fun d => decide (d.free ≤ m.evaluator_floor d.total)) ∧
    (alert_result_logs (m.update_alert_state rl now)).countP
        LogEvent.is_debug_eval = m._state.disks.length := by
  obtain ⟨rl2, logs2, heq, hdbg, _, _⟩ :=
    alert_loop_char m now m._state.disks DiskSpaceAlert.ok rl [] [] h
  simp only [Monitor.update_alert_state, heq]
  refine ⟨?_, ?_, ?_⟩ <;>
    simp [alert_result_alert, alert_result_logs, alert_result_diags, hdbg]

/-- get_disks can only return a one-element list: the single probed disk. -/
theorem get_disks_singleton (m : Monitor) (env : Env) (cfg : Config)
    (disks : List Disk) (h : m.get_disks env cfg = Except.ok disks) :
    ∃ sv, disks = [probed_disk cfg sv] := by
  simp only [Monitor.get_disks] at h
  cases hsv : m.get_statvfs env
      (if m._path_for_test = "" then cfg.data_directory
       else m._path_for_test) with
  | error e => rw [hsv] at h; cases h
  | ok sv =>
    rw [hsv] at h
    cases h
    exact ⟨sv, rfl⟩

/-- update_alert_state only rewrites the alert field of the snapshot: the
disks are unchanged. -/
theorem update_alert_state_preserves (m : Monitor) (rl : RateLimiter)
    (now : Nat) (m3 : Monitor) (rl2 : RateLimiter) (logs : List LogEvent)
    (diags : List Disk)
    (h : m.update_alert_state rl now = some (m3, rl2, logs, diags)) :
    m3._state.disks = m._state.disks := by
  unfold Monitor.update_alert_state at h
  cases hl : m.alert_loop now m._state.disks DiskSpaceAlert.ok rl [] [] with
  | none => rw [hl] at h; cases h
  | some out =>
    rw [hl] at h
    obtain ⟨alert, rl2x, logsx, diagsx⟩ := out
    cases h
    rfl

/-
Claim theorems and their closed witnesses.
-/

/-- Claim C1: for every disk with total > 0 and every threshold pair, the
minimum-free-space floor used by the evaluator equals the minimum of the
percent threshold over 100 times the total and the bytes threshold (the
percent leg carries the truncation of the size_t conversion). -/
theorem evaluator_floor_is_min (m : Monitor) (total : Nat) (_h : 0 < total) :
    m.evaluator_floor total
      = min (m.last_free_space_percent_threshold * total / 100)
          m.last_free_space_bytes_threshold ∧
    (m.minimum_free_by_bytes_and_percent total).1
      = m.last_free_space_bytes_threshold ∧
    (m.minimum_free_by_bytes_and_percent total).2
      = m.last_free_space_percent_threshold * total / 100 :=
  ⟨rfl, rfl, rfl⟩

/-- Witness for C1 at total 1000 with thresholds ten percent and 100 bytes:
the floor is min(100, 100). -/
theorem evaluator_floor_is_min_witness :
    0 < 1000 ∧
    mInit.evaluator_floor 1000
      = min (mInit.last_free_space_percent_threshold * 1000 / 100)
          mInit.last_free_space_bytes_threshold :=
  ⟨by decide, (evaluator_floor_is_min mInit 1000 (by decide)).1⟩

/-- Claim C2: over a snapshot of disks with nonzero totals, the aggregate
alert is low_space exactly when some disk has free at or below its floor, ok
exactly when every disk has free above its floor; the loop keeps going after
a low disk, invoking the diagnostic path for every disk at or below its floor
and emitting one debug line per disk of the whole sequence. -/
theorem update_alert_state_low_space_iff (m : Monitor) (rl : RateLimiter)
    (now : Nat) (h : ∀ d ∈ m._state.disks, d.total ≠ 0) :
    (alert_result_alert (m.update_alert_state rl now)
        = some DiskSpaceAlert.low_space
      ↔ ∃ d ∈ m._state.disks, d.free ≤ m.evaluator_floor d.total) ∧
    (alert_result_alert (m.update_alert_state rl now)
        = some DiskSpaceAlert.ok
      ↔ ∀ d ∈ m._state.disks, m.evaluator_floor d.total < d.free) ∧
    alert_result_diags (m.update_alert_state rl now)
      = m._state.disks.filter
          (fun d => decide (d.free ≤ m.evaluator_floor d.total)) ∧
    (alert_result_logs (m.update_alert_state rl now)).countP
        LogEvent.is_debug_eval = m._state.disks.length := by
  obtain ⟨ha, hd, hl⟩ := update_alert_state_char m rl now h
  refine ⟨?_, ?_, hd, hl⟩
  · rw [ha]
    by_cases hex : ∃ d ∈ m._state.disks, d.free ≤ m.evaluator_floor d.total
    · simp [hex]
    · simp [hex]
  · rw [ha]
    by_cases hex : ∃ d ∈ m._state.disks, d.free ≤ m.evaluator_floor d.total
    · simp only [if_pos hex]
      constructor
      · intro hcontra
        cases hcontra
      · intro hall
        obtain ⟨d, hdm, hdle⟩ := hex
        have := hall d hdm
        omega
    · simp only [if_neg hex]
      constructor
      · intro _ d hdm
        by_contra hle
        exact hex ⟨d, hdm, by omega⟩
      · intro _
        trivial

/-- Witness for C2 on a two-disk snapshot, one disk below floor and one
above: the aggregate is low_space and exactly the low disk is diagnosed. -/
theorem update_alert_state_low_space_iff_witness :
    (∀ d ∈ mTwo._state.disks, d.total ≠ 0) ∧
    (alert_result_alert (mTwo.update_alert_state rlFresh 0)
        = some DiskSpaceAlert.low_space
      ↔ ∃ d ∈ mTwo._state.disks, d.free ≤ mTwo.evaluator_floor d.total) ∧
    alert_result_diags (mTwo.update_alert_state rlFresh 0)
      = mTwo._state.disks.filter
          (fun d => decide (d.free ≤ mTwo.evaluator_floor d.total)) ∧
    (alert_result_logs (mTwo.update_alert_state rlFresh 0)).countP
        LogEvent.is_debug_eval = mTwo._state.disks.length :=
  ⟨by decide,
   (update_alert_state_low_space_iff mTwo rlFresh 0 (by decide)).1,
   (update_alert_state_low_space_iff mTwo rlFresh 0 (by decide)).2.2.1,
   (update_alert_state_low_space_iff mTwo rlFresh 0 (by decide)).2.2.2⟩

/-- Claim C4: when the disk probe fails, update_state surfaces exactly that
error and leaves the cached snapshot as it was: the only state a reader can
get afterwards is the previous one. -/
theorem update_state_probe_error_keeps_state (m : Monitor) (env : Env)
    (cfg : Config) (rl : RateLimiter) (e : ProbeError)
    (h : m.get_disks env cfg = Except.error e) :
    (m.update_state env cfg rl).error_of = some e ∧
    (m.update_state env cfg rl).final_states = [m.get_state_cached] := by
  have hd : ((m.refresh_configuration cfg).1).get_disks env cfg
      = Except.error e := by
    rw [get_disks_refresh]; exact h
  simp only [Monitor.update_state, hd]
  refine ⟨rfl, ?_⟩
  simp [UpdateResult.final_states, refresh_configuration_monitor,
    Monitor.get_state_cached]

/-- Witness for C4: a throwing probe makes update_state report the error and
keep the initial snapshot. -/
theorem update_state_probe_error_keeps_state_witness :
    mInit.get_disks envFail cfgA = Except.error (ProbeError.failed "EIO") ∧
    (mInit.update_state envFail cfgA rlFresh).error_of
      = some (ProbeError.failed "EIO") ∧
    (mInit.update_state envFail cfgA rlFresh).final_states
      = [mInit.get_state_cached] :=
  ⟨rfl,
   (update_state_probe_error_keeps_state mInit envFail cfgA rlFresh
     (ProbeError.failed "EIO") rfl).1,
   (update_state_probe_error_keeps_state mInit envFail cfgA rlFresh
     (ProbeError.failed "EIO") rfl).2⟩

/-- Claim C5: a zero-total disk anywhere in the snapshot makes the evaluator
abort through the vassert (it never classifies such a snapshot at all), and
when every total is nonzero the assertion is unreachable and the evaluator
returns. -/
theorem update_alert_state_zero_total_fatal (m : Monitor) (rl : RateLimiter)
    (now : Nat) :
    ((∃ d ∈ m._state.disks, d.total = 0) →
      m.update_alert_state rl now = none) ∧
    ((∀ d ∈ m._state.disks, d.total ≠ 0) →
      m.update_alert_state rl now ≠ none) := by
  constructor
  · intro hex
    simp only [Monitor.update_alert_state,
      alert_loop_none m now m._state.disks DiskSpaceAlert.ok rl [] [] hex]
  · intro h
    obtain ⟨rl2, logs2, heq, _, _, _⟩ :=
      alert_loop_char m now m._state.disks DiskSpaceAlert.ok rl [] [] h
    simp [Monitor.update_alert_state, heq]

/-- Witness for C5: a snapshot with a zero-total disk is rejected, a snapshot
with nonzero totals is evaluated. -/
theorem update_alert_state_zero_total_fatal_witness :
    (∃ d ∈ mZero._state.disks, d.total = 0) ∧
    mZero.update_alert_state rlFresh 0 = none ∧
    (∀ d ∈ mTwo._state.disks, d.total ≠ 0) ∧
    mTwo.update_alert_state rlFresh 0 ≠ none :=
  ⟨by decide,
   (update_alert_state_zero_total_fatal mZero rlFresh 0).1 (by decide),
   by decide,
   (update_alert_state_zero_total_fatal mTwo rlFresh 0).2 (by decide)⟩

/-- Claim C9: the path recorded in the probed disk is always the configured
data directory, and when the test path override is set the filesystem query
itself is issued against the override path instead. -/
theorem get_disks_path_is_data_directory (m : Monitor) (env : Env)
    (cfg : Config) :
    (∀ disks d, m.get_disks env cfg = Except.ok disks → d ∈ disks →
      d.path = cfg.data_directory) ∧
    (m._path_for_test ≠ "" →
      m.get_disks env cfg
        = Except.map (fun svfs => [probed_disk cfg svfs])
            (m.get_statvfs env m._path_for_test)) := by
  constructor
  · intro disks d hok hmem
    obtain ⟨sv, rfl⟩ := get_disks_singleton m env cfg disks hok
    rw [List.mem_singleton] at hmem
    rw [hmem]
    rfl
  · intro hne
    simp only [Monitor.get_disks]
    rw [if_neg hne]
    cases hsv : m.get_statvfs env m._path_for_test with
    | error e => rfl
    | ok sv => rfl

/-- Witness for C9: with the override at /override the query result is the
one of /override while the reported path stays the data directory /data. -/
theorem get_disks_path_is_data_directory_witness :
    mOverride.get_disks envByPath cfgA = Except.ok [⟨"/data", 7, 100⟩] ∧
    (⟨"/data", 7, 100⟩ : Disk).path = cfgA.data_directory ∧
    mOverride._path_for_test ≠ "" ∧
    mOverride.get_disks envByPath cfgA
      = Except.map (fun svfs => [probed_disk cfgA svfs])
          (mOverride.get_statvfs envByPath mOverride._path_for_test) :=
  ⟨rfl,
   (get_disks_path_is_data_directory mOverride envByPath cfgA).1
     [⟨"/data", 7, 100⟩] ⟨"/data", 7, 100⟩ rfl (by decide),
   by decide,
   (get_disks_path_is_data_directory mOverride envByPath cfgA).2
     (by decide)⟩

/-- Claim C10: a successful update_state always caches a snapshot with
exactly one disk. -/
theorem update_state_single_disk (m : Monitor) (env : Env) (cfg : Config)
    (rl : RateLimiter) (m3 : Monitor) (rl2 : RateLimiter)
    (logs : List LogEvent) (diags : List Disk)
    (h : m.update_state env cfg rl = UpdateResult.ok m3 rl2 logs diags) :
    m3._state.disks.length = 1 := by
  simp only [Monitor.update_state] at h
  split at h
  · cases h
  · rename_i disks heq
    split at h
    · cases h
    · rename_i out m3x rl2x logsx diagsx halert
      cases h
      have hpres := update_alert_state_preserves _ _ _ _ _ _ _ halert
      obtain ⟨sv, rfl⟩ := get_disks_singleton _ env cfg disks heq
      rw [hpres]
      rfl

/-- Witness for C10: the first cycle of the fixture caches exactly one
disk. -/
theorem update_state_single_disk_witness :
    mInit.update_state (envAt 0) cfgA rlFresh
      = UpdateResult.ok m3A rlA logsA [dA] ∧
    m3A._state.disks.length = 1 :=
  ⟨rfl,
   update_state_single_disk mInit (envAt 0) cfgA rlFresh m3A rlA logsA [dA]
     rfl⟩

/-- Counterexample to C3 as stated: on the fixture cycle the executed step
order is refresh, probe, swap, evaluate; the swap of the new snapshot comes
before the alert evaluation, not after it, and the snapshot swapped in at
step three still carries the default ok alert while the disks are already the
new ones, which step four then overwrites to low_space in place. -/
theorem update_state_order_counterexample :
    (mInit.update_state_traced (envAt 0) cfgA rlFresh).1.map Prod.fst
      = [Step.refresh_config, Step.probe_disks, Step.swap_state,
         Step.eval_alert] ∧
    (mInit.update_state_traced (envAt 0) cfgA rlFresh).1.map Prod.fst
      ≠ [Step.refresh_config, Step.probe_disks, Step.eval_alert,
         Step.swap_state] ∧
    ((mInit.update_state_traced (envAt 0) cfgA rlFresh).1.map Prod.snd).get? 2
      = some ⟨"v1", 5, [dA], DiskSpaceAlert.ok⟩ ∧
    ((mInit.update_state_traced (envAt 0) cfgA rlFresh).1.map Prod.snd).get? 3
      = some ⟨"v1", 5, [dA], DiskSpaceAlert.low_space⟩ :=
  ⟨by decide, by decide, by decide, by decide⟩

/-- Claim C3 (amended): per successful cycle the executed order is refresh
configuration, probe, swap in the new snapshot with the alert field still at
its default, then evaluate the alert in place; because no suspension point
separates the swap from the evaluation, a reader of get_state_cached still
observes only the snapshot from before the cycle or the fully evaluated new
one, never the intermediate one. -/
theorem update_state_order_amended (m : Monitor) (env : Env) (cfg : Config)
    (rl : RateLimiter) (m3 : Monitor) (rl2 : RateLimiter)
    (logs : List LogEvent) (diags : List Disk)
    (h : m.update_state env cfg rl = UpdateResult.ok m3 rl2 logs diags) :
    (m.update_state_traced env cfg rl).1.map Prod.fst
      = [Step.refresh_config, Step.probe_disks, Step.swap_state,
         Step.eval_alert] ∧
    ∀ s ∈ m.reader_observable_states env cfg rl,
      s = m.get_state_cached ∨ s = m3._state := by
  have h0 := h
  simp only [Monitor.update_state] at h
  split at h
  · cases h
  · rename_i disks heq
    split at h
    · cases h
    · rename_i out m3x rl2x logsx diagsx halert
      cases h
      constructor
      · simp only [Monitor.update_state_traced, heq, halert]
        rfl
      · intro s hs
        unfold Monitor.reader_observable_states at hs
        rw [h0] at hs
        simp only [UpdateResult.final_states, List.mem_cons,
          List.mem_singleton] at hs
        rcases hs with hs | hs | hs
        · exact Or.inl hs
        · exact Or.inr hs
        · cases hs

/-- Witness for the amended C3 on the fixture cycle. -/
theorem update_state_order_amended_witness :
    mInit.update_state (envAt 0) cfgA rlFresh
      = UpdateResult.ok m3A rlA logsA [dA] ∧
    (mInit.update_state_traced (envAt 0) cfgA rlFresh).1.map Prod.fst
      = [Step.refresh_config, Step.probe_disks, Step.swap_state,
         Step.eval_alert] ∧
    ∀ s ∈ mInit.reader_observable_states (envAt 0) cfgA rlFresh,
      s = mInit.get_state_cached ∨ s = m3A._state :=
  ⟨rfl,
   (update_state_order_amended mInit (envAt 0) cfgA rlFresh m3A rlA logsA
     [dA] rfl).1,
   (update_state_order_amended mInit (envAt 0) cfgA rlFresh m3A rlA logsA
     [dA] rfl).2⟩

/-- Claim C6: per cycle and per threshold setting, the refresh emits exactly
one info transition line from the old to the new value when the freshly read
setting differs from the cache and none when it is unchanged; the cache ends
at the fresh values either way, so an unchanged setting leaves it untouched;
and since the refresh precedes the probe and the evaluation, the same cycle
already evaluates against the floor built from the fresh values. -/
theorem refresh_configuration_transitions (m : Monitor) (cfg : Config) :
    (m.refresh_configuration cfg).1.last_free_space_percent_threshold
      = get_config_alert_threshold_percent cfg ∧
    (m.refresh_configuration cfg).1.last_free_space_bytes_threshold
      = get_config_alert_threshold_bytes cfg ∧
    ((m.refresh_configuration cfg).2).countP LogEvent.is_percent_update
      = (if m.last_free_space_percent_threshold
            = get_config_alert_threshold_percent cfg then 0 else 1) ∧
    ((m.refresh_configuration cfg).2).countP LogEvent.is_bytes_update
      = (if m.last_free_space_bytes_threshold
            = get_config_alert_threshold_bytes cfg then 0 else 1) ∧
    (m.last_free_space_percent_threshold
        ≠ get_config_alert_threshold_percent cfg →
      LogEvent.info_percent_threshold_updated
          m.last_free_space_percent_threshold
          (get_config_alert_threshold_percent cfg)
        ∈ (m.refresh_configuration cfg).2) ∧
    (m.last_free_space_bytes_threshold
        ≠ get_config_alert_threshold_bytes cfg →
      LogEvent.info_bytes_threshold_updated
          m.last_free_space_bytes_threshold
          (get_config_alert_threshold_bytes cfg)
        ∈ (m.refresh_configuration cfg).2) ∧
    (∀ env rl sv,
      m.get_statvfs env
          (if m._path_for_test = "" then cfg.data_directory
           else m._path_for_test) = Except.ok sv →
      sv.f_blocks * sv.f_frsize ≠ 0 →
      (m.update_state env cfg rl).alert_of
        = some (if sv.f_bfree * sv.f_frsize
                    ≤ config_floor cfg (sv.f_blocks * sv.f_frsize)
                then DiskSpaceAlert.low_space else DiskSpaceAlert.ok)) := by
  refine ⟨?_, ?_, ?_, ?_, ?_, ?_, ?_⟩
  · rw [refresh_configuration_monitor]
  · rw [refresh_configuration_monitor]
  · rw [refresh_configuration_logs, List.countP_append]
    split_ifs <;> simp [LogEvent.is_percent_update, LogEvent.is_bytes_update,
      List.countP_cons]
  · rw [refresh_configuration_logs, List.countP_append]
    split_ifs <;> simp [LogEvent.is_percent_update, LogEvent.is_bytes_update,
      List.countP_cons]
  · intro hne
    rw [refresh_configuration_logs]
    simp [hne]
  · intro hne
    rw [refresh_configuration_logs]
    simp [hne]
  · intro env rl sv hsv htot
    rw [update_state_ok_eq m env cfg rl sv hsv htot]
    rfl

/-- Witness for C6: thresholds cached as ten percent and 100 bytes, freshly
read as five percent and 500 bytes: one transition line each, cache moved to
the fresh values, and the same cycle evaluates against the fresh floor of 50
bytes, raising the alert. -/
theorem refresh_configuration_transitions_witness :
    ((mInit.refresh_configuration cfgB).2).countP LogEvent.is_percent_update
      = 1 ∧
    ((mInit.refresh_configuration cfgB).2).countP LogEvent.is_bytes_update
      = 1 ∧
    LogEvent.info_percent_threshold_updated 10 5
      ∈ (mInit.refresh_configuration cfgB).2 ∧
    (mInit.refresh_configuration cfgB).1.last_free_space_percent_threshold
      = 5 ∧
    (mInit.refresh_configuration cfgB).1.last_free_space_bytes_threshold
      = 500 ∧
    (mInit.update_state (envAt 0) cfgB rlFresh).alert_of
      = some DiskSpaceAlert.low_space := by
  have h := refresh_configuration_transitions mInit cfgB
  refine ⟨(h.2.2.1).trans (by decide), (h.2.2.2.1).trans (by decide),
    h.2.2.2.2.1 (by decide), h.1, h.2.1, ?_⟩
  exact (h.2.2.2.2.2.2 (envAt 0) rlFresh svOK rfl (by decide)).trans
    (by decide)

/-- Claim C7: two consecutive update_state calls with the same configuration
and the same probe result, the second within one despam interval of the
first, both succeed, cache the same disks and the same aggregate alert (the
snapshot is identical up to the version and uptime inputs), and the second
call emits no low-space error line. -/
theorem update_state_idempotent (m : Monitor) (env1 env2 : Env) (cfg : Config)
    (rl : RateLimiter) (sv : Statvfs)
    (h1 : m.get_statvfs env1
        (if m._path_for_test = "" then cfg.data_directory
         else m._path_for_test) = Except.ok sv)
    (h2 : m.get_statvfs env2
        (if m._path_for_test = "" then cfg.data_directory
         else m._path_for_test) = Except.ok sv)
    (htot : sv.f_blocks * sv.f_frsize ≠ 0)
    (hwin1 : env2.now < env1.now + rl.interval)
    (hwin2 : ∀ s, rl.lastEmit = some s → env2.now < s + rl.interval) :
    (m.update_state env1 cfg rl).is_ok = true ∧
    (((m.update_state env1 cfg rl).monitor_or m).update_state env2 cfg
        ((m.update_state env1 cfg rl).rl_or rl)).is_ok = true ∧
    (((m.update_state env1 cfg rl).monitor_or m).update_state env2 cfg
        ((m.update_state env1 cfg rl).rl_or rl)).disks_of
      = (m.update_state env1 cfg rl).disks_of ∧
    (((m.update_state env1 cfg rl).monitor_or m).update_state env2 cfg
        ((m.update_state env1 cfg rl).rl_or rl)).alert_of
      = (m.update_state env1 cfg rl).alert_of ∧
    ((((m.update_state env1 cfg rl).monitor_or m).update_state env2 cfg
        ((m.update_state env1 cfg rl).rl_or rl)).logs_of).countP
        LogEvent.is_error_low_space = 0 := by
  have hfirst := update_state_ok_eq m env1 cfg rl sv h1 htot
  rw [hfirst]
  simp only [UpdateResult.monitor_or, UpdateResult.rl_or]
  by_cases hb : sv.f_bfree * sv.f_frsize
      ≤ config_floor cfg (sv.f_blocks * sv.f_frsize)
  · simp only [if_pos hb]
    have hsecond := update_state_ok_eq
      ⟨⟨env1.redpanda_version, env1.uptime, [probed_disk cfg sv],
        DiskSpaceAlert.low_space⟩,
       get_config_alert_threshold_percent cfg,
       get_config_alert_threshold_bytes cfg,
       m._path_for_test, m._statvfs_for_test⟩
      env2 cfg ((rl.attempt env1.now).2) sv h2 htot
    rw [hsecond]
    have hsup : (((rl.attempt env1.now).2).attempt env2.now).1 = false := by
      rw [attempt_twice_false rl env1.now env2.now hwin1 hwin2]
    refine ⟨rfl, rfl, rfl, ?_, ?_⟩
    · simp [UpdateResult.alert_of, if_pos hb]
    · simp only [UpdateResult.logs_of, List.countP_append,
        refresh_configuration_logs]
      rw [if_pos hb, hsup]
      simp [LogEvent.is_error_low_space, List.countP_cons]
  · simp only [if_neg hb]
    have hsecond := update_state_ok_eq
      ⟨⟨env1.redpanda_version, env1.uptime, [probed_disk cfg sv],
        DiskSpaceAlert.ok⟩,
       get_config_alert_threshold_percent cfg,
       get_config_alert_threshold_bytes cfg,
       m._path_for_test, m._statvfs_for_test⟩
      env2 cfg rl sv h2 htot
    rw [hsecond]
    refine ⟨rfl, rfl, rfl, ?_, ?_⟩
    · simp [UpdateResult.alert_of, if_neg hb]
    · simp only [UpdateResult.logs_of, List.countP_append,
        refresh_configuration_logs]
      rw [if_neg hb]
      simp [LogEvent.is_error_low_space, List.countP_cons]

/-- Witness for C7: a second cycle at time 7, within the 10-unit interval of
the first emission at time 0, keeps the alert and emits no error line. -/
theorem update_state_idempotent_witness :
    (m3A.update_state (envAt 7) cfgA rlA).is_ok = true ∧
    (m3A.update_state (envAt 7) cfgA rlA).alert_of
      = (mInit.update_state (envAt 0) cfgA rlFresh).alert_of ∧
    ((m3A.update_state (envAt 7) cfgA rlA).logs_of).countP
        LogEvent.is_error_low_space = 0 := by
  have h := update_state_idempotent mInit (envAt 0) (envAt 7) cfgA rlFresh
    svOK rfl rfl (by decide) (by decide) (fun s hs => Option.noConfusion hs)
  exact ⟨h.2.1, h.2.2.2.1, h.2.2.2.2⟩

/-- Claim C8: with a probe that persistently reports a disk at or below its
floor, any number of refresh cycles whose times all fall inside one window
of the despam interval length emit at most one error line in total. -/
theorem run_cycles_despam (statfn : String → Except ProbeError Statvfs)
    (ver : String) (up : Nat) (cfg : Config) (sv : Statvfs) (m : Monitor)
    (rl : RateLimiter) (times : List Nat) (a : Nat)
    (hsv : statfn (if m._path_for_test = "" then cfg.data_directory
      else m._path_for_test) = Except.ok sv)
    (hseam : m._statvfs_for_test = none)
    (htot : sv.f_blocks * sv.f_frsize ≠ 0)
    (hbelow : sv.f_bfree * sv.f_frsize
      ≤ config_floor cfg (sv.f_blocks * sv.f_frsize))
    (hwin : ∀ t ∈ times, a ≤ t ∧ t < a + rl.interval) :
    (run_cycles statfn ver up cfg m rl times).countP
        LogEvent.is_error_low_space ≤ 1 := by
  rw [run_cycles_error_count statfn ver up cfg sv m._path_for_test hsv htot
    hbelow times m rl rfl hseam]
  exact run_le_one a times rl hwin

/-- Witness for C8: three cycles at times 0, 3 and 7 inside one 10-unit
interval over a disk below floor produce at most one error line. -/
theorem run_cycles_despam_witness :
    (∀ t ∈ [0, 3, 7], 0 ≤ t ∧ t < 0 + rlFresh.interval) ∧
    (run_cycles statfnOK "v1" 5 cfgA mInit rlFresh [0, 3, 7]).countP
        LogEvent.is_error_low_space ≤ 1 :=
  ⟨by decide,
   run_cycles_despam statfnOK "v1" 5 cfgA svOK mInit rlFresh [0, 3, 7] 0
     rfl rfl (by decide) (by decide) (by decide)⟩

end ClusterNode
